import Mathlib

/-
Verification of the pushmatic orchestration contract (src/src/index.js).

The library is four static methods chaining host-provided asynchronous
browser capabilities. We embed each method as a function from a host
environment to the outcome of the returned promise, paired with the list
of host-capability invocations it performs (the observable trace used for
ordering and no-invocation properties).

Promise semantics embedded here:
- an outcome is resolved, rejected, or pending (never settles);
- new Promise(executor) runs the executor synchronously; a value thrown
  by the executor rejects the promise (runPromise below);
- p.then(f) propagates rejection and pending; p.then(f).catch(reject)
  forwards host rejections unchanged;
- p.then(f) with no catch drops a rejection of p: neither resolve nor
  reject is called, so the outer promise stays pending forever.
-/

namespace Pushmatic

/-- Opaque service-worker registration handle. The orchestrator inspects
only whether it exposes a pushManager capability; uid tracks identity. -/
structure Registration where
  pushManager : Bool
  uid : Nat
deriving DecidableEq

/-- Subscription options, passed through to the host subscribe capability. -/
structure SubOptions where
  userVisibleOnly : Bool
  applicationServerKey : String
deriving DecidableEq

/-- Opaque push subscription handle returned by the host subscribe capability. -/
structure Subscription where
  endpoint : String
  uid : Nat
deriving DecidableEq

/-- JavaScript error values.
error: an Error constructed by the library with the given message.
native: a TypeError or ReferenceError thrown by the runtime.
hostErr: an opaque error value produced by a host capability.
registrationFailed and subscriptionFailed are modelled from the spec
(section 7 error taxonomy, wrapper constructors around a cause); the
code-derived semantics below never constructs them - they exist only to
compare the wrapping wording of the spec against what the code does. -/
inductive JsError where
  | error : String → JsError
  | native : String → JsError
  | hostErr : Nat → JsError
  | registrationFailed : JsError → JsError
  | subscriptionFailed : JsError → JsError
deriving DecidableEq

/-- Outcome of a promise: settles with a value, settles with an error,
or never settles. -/
inductive Outcome (α : Type) where
  | resolved : α → Outcome α
  | rejected : JsError → Outcome α
  | pending : Outcome α
deriving DecidableEq

/-- One invocation of a host capability, with the arguments it received. -/
inductive HostCall where
  | register : String → HostCall
  | requestPermission : HostCall
  | subscribe : Registration → SubOptions → HostCall
deriving DecidableEq

/-- Result of running a promise executor body: either it completed and
determined the promise outcome, or it threw synchronously. -/
inductive ExecOut (α : Type) where
  | settled : Outcome α → ExecOut α
  | threw : JsError → ExecOut α
deriving DecidableEq

/-- Host environment: which globals exist and how each host capability
behaves when invoked. -/
structure Env where
  hasWindow : Bool
  hasNotification : Bool
  requestPermissionOutcome : Outcome String
  permission : String
  hasNavigator : Bool
  hasServiceWorker : Bool
  registerOutcome : String → Outcome Registration
  subscribeOutcome : Registration → SubOptions → Outcome Subscription

/-- Semantics of new Promise(executor): a throwing executor rejects the
returned promise; otherwise the outcome the executor determined stands. -/
def runPromise {α : Type} : ExecOut α × List HostCall → Outcome α × List HostCall
  | (.settled o, t) => (o, t)
  | (.threw e, t) => (.rejected e, t)

/-- Executor body of requestPermission (index.js lines 10-23).
Checks Notification in window (throws a ReferenceError when window itself
is absent), then invokes Notification.requestPermission(). The then
callback resolves on the string granted and rejects otherwise; there is
no catch, so a host rejection settles nothing and the promise stays
pending. -/
def requestPermissionExec (env : Env) : ExecOut String × List HostCall :=
  if env.hasWindow = false then
    (.threw (.native "ReferenceError: window is not defined"), [])
  else if env.hasNotification = false then
    (.settled (.rejected (.error "This browser does not support notifications.")), [])
  else
    match env.requestPermissionOutcome with
    | .resolved p =>
        if p = "granted" then (.settled (.resolved p), [.requestPermission])
        else (.settled (.rejected (.error "Notification permission not granted.")),
              [.requestPermission])
    | .rejected _ => (.settled .pending, [.requestPermission])
    | .pending => (.settled .pending, [.requestPermission])

/-- Pushmatic.requestPermission. -/
def requestPermission (env : Env) : Outcome String × List HostCall :=
  runPromise (requestPermissionExec env)

/-- Executor body of registerServiceWorker (index.js lines 32-43).
Checks serviceWorker in navigator (throws a ReferenceError when navigator
itself is absent), then invokes navigator.serviceWorker.register with the
script URL; then(resolve).catch(reject) forwards the host result or host
error unchanged. -/
def registerServiceWorkerExec (env : Env) (scriptURL : String) :
    ExecOut Registration × List HostCall :=
  if env.hasNavigator = false then
    (.threw (.native "ReferenceError: navigator is not defined"), [])
  else if env.hasServiceWorker = false then
    (.settled (.rejected (.error "Service Workers are not supported in this browser.")), [])
  else
    match env.registerOutcome scriptURL with
    | .resolved r => (.settled (.resolved r), [.register scriptURL])
    | .rejected e => (.settled (.rejected e), [.register scriptURL])
    | .pending => (.settled .pending, [.register scriptURL])

/-- Pushmatic.registerServiceWorker. -/
def registerServiceWorker (env : Env) (scriptURL : String) :
    Outcome Registration × List HostCall :=
  runPromise (registerServiceWorkerExec env scriptURL)

/-- Executor body of subscribeToPush (index.js lines 52-62).
Reading pushManager of a null or undefined registration throws a
TypeError. Then the pushManager presence check, then the
Notification.permission check (reading Notification throws a
ReferenceError when it is absent), then the host subscribe call with
then(resolve).catch(reject). -/
def subscribeToPushExec (env : Env) (registration : Option Registration)
    (options : SubOptions) : ExecOut Subscription × List HostCall :=
  match registration with
  | none =>
      (.threw (.native "TypeError: Cannot read properties of null (reading pushManager)"), [])
  | some r =>
    if r.pushManager = false then
      (.settled (.rejected (.error "Push messaging is not supported in this browser.")), [])
    else if env.hasNotification = false then
      (.threw (.native "ReferenceError: Notification is not defined"), [])
    else if env.permission ≠ "granted" then
      (.settled (.rejected (.error "Notification permission is not granted.")), [])
    else
      match env.subscribeOutcome r options with
      | .resolved s => (.settled (.resolved s), [.subscribe r options])
      | .rejected e => (.settled (.rejected e), [.subscribe r options])
      | .pending => (.settled .pending, [.subscribe r options])

/-- Pushmatic.subscribeToPush. -/
def subscribeToPush (env : Env) (registration : Option Registration)
    (options : SubOptions) : Outcome Subscription × List HostCall :=
  runPromise (subscribeToPushExec env registration options)

/-- Pushmatic.initializePushNotifications (index.js lines 71-77):
registerServiceWorker(url).then(reg morphed through requestPermission)
.then(reg goes to subscribeToPush). Rejection or pending at any step
propagates and stops the chain; the registration resolved by step 1 is
the one handed to step 3. -/
def initializePushNotifications (env : Env) (serviceWorkerUrl : String)
    (options : SubOptions) : Outcome Subscription × List HostCall :=
  match registerServiceWorker env serviceWorkerUrl with
  | (.resolved r, t1) =>
    match requestPermission env with
    | (.resolved _, t2) =>
      (fun p => (p.1, t1 ++ t2 ++ p.2)) (subscribeToPush env (some r) options)
    | (.rejected e, t2) => (.rejected e, t1 ++ t2)
    | (.pending, t2) => (.pending, t1 ++ t2)
  | (.rejected e, t1) => (.rejected e, t1)
  | (.pending, t1) => (.pending, t1)

/-- Test for a host permission-request invocation in a trace. -/
def HostCall.isRequestPermission : HostCall → Bool
  | .requestPermission => true
  | _ => false

/-- Test for a host subscribe invocation in a trace. -/
def HostCall.isSubscribe : HostCall → Bool
  | .subscribe _ _ => true
  | _ => false

/-- Number of host permission-request invocations in a trace. -/
def permCalls (t : List HostCall) : Nat :=
  (t.filter HostCall.isRequestPermission).length

/-- Number of host subscribe invocations in a trace. -/
def subCalls (t : List HostCall) : Nat :=
  (t.filter HostCall.isSubscribe).length

/-- Concrete registration exposing a pushManager. -/
def regA : Registration := { pushManager := true, uid := 1 }

/-- Concrete registration lacking a pushManager. -/
def regNoPM : Registration := { pushManager := false, uid := 2 }

/-- Concrete subscription options from the literal spec scenario 4. -/
def optsA : SubOptions := { userVisibleOnly := true, applicationServerKey := "dummyKey" }

/-- Concrete subscription from the literal spec scenario 4. -/
def subA : Subscription := { endpoint := "https://dummy.push/subscription", uid := 1 }

/-- Environment in which every capability is present and succeeds. -/
def envOk : Env :=
  { hasWindow := true, hasNotification := true,
    requestPermissionOutcome := .resolved "granted", permission := "granted",
    hasNavigator := true, hasServiceWorker := true,
    registerOutcome := fun _ => .resolved regA,
    subscribeOutcome := fun _ _ => .resolved subA }

/-- Environment in which the user denied the permission prompt. -/
def envDenied : Env :=
  { envOk with requestPermissionOutcome := .resolved "denied", permission := "default" }

/-- Environment in which host worker registration fails with an opaque error. -/
def envRegFail : Env :=
  { envOk with registerOutcome := fun _ => .rejected (.hostErr 5) }

/-- Environment in which both host register and host subscribe fail with
opaque errors. -/
def envHostFail : Env :=
  { envOk with
    registerOutcome := (fun _ => .rejected (.hostErr 7)),
    subscribeOutcome := (fun _ _ => .rejected (.hostErr 9)) }

/-- Environment lacking navigator.serviceWorker. -/
def envNoSW : Env := { envOk with hasServiceWorker := false }

/-- Environment with no global window object at all. -/
def envNoWin : Env := { envOk with hasWindow := false, hasNotification := false }

/-- Environment in which the host permission promise rejects. -/
def envPermReject : Env :=
  { envOk with requestPermissionOutcome := .rejected (.hostErr 3) }

/-- Helper: registerServiceWorker performs no host permission or subscribe
call, and at most the one register call. -/
theorem register_trace (env : Env) (url : String) :
    (registerServiceWorker env url).2 = [] ∨
    (registerServiceWorker env url).2 = [HostCall.register url] := by
  cases hn : env.hasNavigator <;>
    cases hs : env.hasServiceWorker <;>
      cases hr : env.registerOutcome url <;>
        simp [registerServiceWorker, registerServiceWorkerExec, runPromise, hn, hs, hr]

/-- Helper: requestPermission performs at most the one host permission call. -/
theorem permission_trace (env : Env) :
    (requestPermission env).2 = [] ∨
    (requestPermission env).2 = [HostCall.requestPermission] := by
  cases hw : env.hasWindow <;>
    cases hn : env.hasNotification <;>
      cases hr : env.requestPermissionOutcome with
      | resolved p =>
          by_cases hp : p = "granted" <;>
            simp [requestPermission, requestPermissionExec, runPromise, hw, hn, hr, hp]
      | rejected e =>
          simp [requestPermission, requestPermissionExec, runPromise, hw, hn, hr]
      | pending =>
          simp [requestPermission, requestPermissionExec, runPromise, hw, hn, hr]

/-- Helper: a resolved registerServiceWorker came from a resolved host
register call, and its trace is exactly that call. -/
theorem register_resolved (env : Env) (url : String) (r : Registration)
    (h : (registerServiceWorker env url).1 = .resolved r) :
    registerServiceWorker env url = (.resolved r, [HostCall.register url]) := by
  cases hn : env.hasNavigator <;>
    cases hs : env.hasServiceWorker <;>
      cases hr : env.registerOutcome url <;>
        simp_all [registerServiceWorker, registerServiceWorkerExec, runPromise, hn, hs, hr]

/-- Helper: a resolved requestPermission resolved with granted, from a host
permission capability that resolved granted, and its trace is exactly the
one host permission call. -/
theorem permission_resolved (env : Env) (p : String)
    (h : (requestPermission env).1 = .resolved p) :
    p = "granted" ∧ env.requestPermissionOutcome = .resolved "granted" ∧
      requestPermission env = (.resolved "granted", [HostCall.requestPermission]) := by
  cases hw : env.hasWindow <;>
    cases hn : env.hasNotification <;>
      cases hr : env.requestPermissionOutcome with
      | resolved q =>
          by_cases hq : q = "granted" <;>
            simp_all [requestPermission, requestPermissionExec, runPromise, hw, hn, hr, hq]
      | rejected e =>
          simp_all [requestPermission, requestPermissionExec, runPromise, hw, hn, hr]
      | pending =>
          simp_all [requestPermission, requestPermissionExec, runPromise, hw, hn, hr]

/-- Helper: a resolved subscribeToPush came from a resolved host subscribe
call on that registration and options, and its trace is exactly that call. -/
theorem subscribe_resolved (env : Env) (r : Registration) (opts : SubOptions)
    (s : Subscription) (h : (subscribeToPush env (some r) opts).1 = .resolved s) :
    subscribeToPush env (some r) opts = (.resolved s, [HostCall.subscribe r opts]) := by
  cases hp : r.pushManager <;>
    cases hn : env.hasNotification <;>
      rcases hs : env.subscribeOutcome r opts with s0 | e0 | _ <;>
        by_cases hg : env.permission = "granted" <;>
          simp_all [subscribeToPush, subscribeToPushExec, runPromise, hp, hn, hs, hg]

/-- C3: requestPermission resolves with granted iff the host permission
capability resolves with granted, and for every other status value the
host resolves with, requestPermission rejects with the fixed denial
message. Stated for environments where the Notification capability is
present, so that a host permission capability exists to be invoked. -/
theorem C3_permission_gate (env : Env)
    (hw : env.hasWindow = true) (hn : env.hasNotification = true) :
    ((requestPermission env).1 = .resolved "granted" ↔
      env.requestPermissionOutcome = .resolved "granted") ∧
    (∀ p, p ≠ "granted" → env.requestPermissionOutcome = .resolved p →
      (requestPermission env).1 =
        .rejected (.error "Notification permission not granted.")) := by
  constructor
  · constructor
    · intro h
      exact (permission_resolved env "granted" h).2.1
    · intro h
      simp [requestPermission, requestPermissionExec, runPromise, hw, hn, h]
  · intro p hp h
    simp [requestPermission, requestPermissionExec, runPromise, hw, hn, h, hp]

/-- C3 witness: the literal spec scenarios 1 and 2, a host that grants and
a host that denies. -/
theorem C3_permission_gate_witness :
    (requestPermission envOk).1 = .resolved "granted" ∧
    (requestPermission envDenied).1 =
      .rejected (.error "Notification permission not granted.") :=
  ⟨(C3_permission_gate envOk rfl rfl).1.mpr rfl,
   (C3_permission_gate envDenied rfl rfl).2 "denied" (by decide) rfl⟩

/-- C4: the two subscribeToPush preconditions are checked in order, each
short-circuiting the rest, and each violated condition is individually
sufficient for rejection. The first conjunct holds with no assumption on
the permission status, so the pushManager check wins when both are
violated; in both cases the trace is empty, so the host subscribe
capability is never invoked. -/
theorem C4_subscribe_preconditions (env : Env) (r : Registration) (opts : SubOptions) :
    (r.pushManager = false →
      subscribeToPush env (some r) opts =
        (.rejected (.error "Push messaging is not supported in this browser."), [])) ∧
    (r.pushManager = true → env.hasNotification = true → env.permission ≠ "granted" →
      subscribeToPush env (some r) opts =
        (.rejected (.error "Notification permission is not granted."), [])) := by
  constructor
  · intro h
    simp [subscribeToPush, subscribeToPushExec, runPromise, h]
  · intro h hn hg
    simp [subscribeToPush, subscribeToPushExec, runPromise, h, hn, hg]

/-- C4 witness: a registration without pushManager, and a registration
with pushManager but permission still default. -/
theorem C4_subscribe_preconditions_witness :
    subscribeToPush envOk (some regNoPM) optsA =
      (.rejected (.error "Push messaging is not supported in this browser."), []) ∧
    subscribeToPush envDenied (some regA) optsA =
      (.rejected (.error "Notification permission is not granted."), []) :=
  ⟨(C4_subscribe_preconditions envOk regNoPM optsA).1 rfl,
   (C4_subscribe_preconditions envDenied regA optsA).2 rfl rfl (by decide)⟩

/-- C5: when navigator.serviceWorker is absent, registerServiceWorker
rejects with the fixed message and an empty trace: no host capability is
invoked. The statement holds for every registerOutcome the environment
could have, which is exactly what a presence check before invocation (as
opposed to attempting the call and catching the failure) guarantees. -/
theorem C5_no_serviceworker (env : Env) (url : String)
    (hnav : env.hasNavigator = true) (hsw : env.hasServiceWorker = false) :
    registerServiceWorker env url =
      (.rejected (.error "Service Workers are not supported in this browser."), []) := by
  simp [registerServiceWorker, registerServiceWorkerExec, runPromise, hnav, hsw]

/-- C5 witness: the literal spec scenario 3. -/
theorem C5_no_serviceworker_witness :
    registerServiceWorker envNoSW "/sw.js" =
      (.rejected (.error "Service Workers are not supported in this browser."), []) :=
  C5_no_serviceworker envNoSW "/sw.js" rfl rfl

/-- C7: on success subscribeToPush resolves with exactly the value the
host subscribe capability resolved with, and the host capability receives
exactly the given registration and options (visible in the trace event
and in the host outcome function being applied to opts itself). -/
theorem C7_subscribe_passthrough (env : Env) (r : Registration) (opts : SubOptions)
    (s : Subscription) (hp : r.pushManager = true) (hn : env.hasNotification = true)
    (hg : env.permission = "granted") (hs : env.subscribeOutcome r opts = .resolved s) :
    subscribeToPush env (some r) opts = (.resolved s, [HostCall.subscribe r opts]) := by
  simp [subscribeToPush, subscribeToPushExec, runPromise, hp, hn, hg, hs]

/-- C7 witness: the literal spec scenario 4. -/
theorem C7_subscribe_passthrough_witness :
    subscribeToPush envOk (some regA) optsA =
      (.resolved subA, [HostCall.subscribe regA optsA]) :=
  C7_subscribe_passthrough envOk regA optsA subA rfl rfl rfl rfl

/-- C1: first failure wins in initializePushNotifications. If step 1
rejects, the composition rejects with the same error value and the trace
contains no host permission and no host subscribe call; if step 1
resolves and step 2 rejects, the composition rejects with the error of
step 2 and no host subscribe call happens; if steps 1 and 2 resolve and
step 3 rejects, the composition rejects with the error of step 3. The
error value is propagated by equality: unchanged, unwrapped, no retry,
no aggregation. -/
theorem C1_init_fail_fast (env : Env) (url : String) (opts : SubOptions) :
    (∀ e, (registerServiceWorker env url).1 = .rejected e →
      (initializePushNotifications env url opts).1 = .rejected e ∧
      permCalls (initializePushNotifications env url opts).2 = 0 ∧
      subCalls (initializePushNotifications env url opts).2 = 0) ∧
    (∀ r e, (registerServiceWorker env url).1 = .resolved r →
      (requestPermission env).1 = .rejected e →
      (initializePushNotifications env url opts).1 = .rejected e ∧
      subCalls (initializePushNotifications env url opts).2 = 0) ∧
    (∀ r p e, (registerServiceWorker env url).1 = .resolved r →
      (requestPermission env).1 = .resolved p →
      (subscribeToPush env (some r) opts).1 = .rejected e →
      (initializePushNotifications env url opts).1 = .rejected e) := by
  refine ⟨?_, ?_, ?_⟩
  · intro e he
    rcases hreg : registerServiceWorker env url with ⟨o1, t1⟩
    rw [hreg] at he
    simp at he
    subst he
    have ht : t1 = [] ∨ t1 = [HostCall.register url] := by
      have h := register_trace env url
      rw [hreg] at h
      exact h
    rcases ht with h | h <;>
      simp [initializePushNotifications, hreg, h, permCalls, subCalls,
        HostCall.isRequestPermission, HostCall.isSubscribe]
  · intro r e hr hp
    have hreg := register_resolved env url r hr
    rcases hperm : requestPermission env with ⟨o2, t2⟩
    rw [hperm] at hp
    simp at hp
    subst hp
    have ht : t2 = [] ∨ t2 = [HostCall.requestPermission] := by
      have h := permission_trace env
      rw [hperm] at h
      exact h
    rcases ht with h | h <;>
      simp [initializePushNotifications, hreg, hperm, h, subCalls, HostCall.isSubscribe]
  · intro r p e hr hp hs
    have hreg := register_resolved env url r hr
    have hperm := (permission_resolved env p hp).2.2
    rcases hsub : subscribeToPush env (some r) opts with ⟨o3, t3⟩
    rw [hsub] at hs
    simp at hs
    subst hs
    simp [initializePushNotifications, hreg, hperm, hsub]

/-- C1 witness: a host whose register capability rejects hostErr 5, and a
host that denies the permission prompt after a successful registration. -/
theorem C1_init_fail_fast_witness :
    ((initializePushNotifications envRegFail "/sw.js" optsA).1 =
        .rejected (.hostErr 5) ∧
      permCalls (initializePushNotifications envRegFail "/sw.js" optsA).2 = 0 ∧
      subCalls (initializePushNotifications envRegFail "/sw.js" optsA).2 = 0) ∧
    ((initializePushNotifications envDenied "/sw.js" optsA).1 =
        .rejected (.error "Notification permission not granted.") ∧
      subCalls (initializePushNotifications envDenied "/sw.js" optsA).2 = 0) :=
  ⟨(C1_init_fail_fast envRegFail "/sw.js" optsA).1 (.hostErr 5) (by decide),
   (C1_init_fail_fast envDenied "/sw.js" optsA).2.1 regA
     (.error "Notification permission not granted.") (by decide) (by decide)⟩

/-- C2: every successful run of initializePushNotifications produced the
trace register, then requestPermission, then subscribe, with the
subscribe call receiving exactly the registration resolved by step 1 and
the options given by the caller. Sequencing in the embedding only starts
a step once the previous promise resolved, so this trace shape is the
ordering guarantee. -/
theorem C2_init_ordering (env : Env) (url : String) (opts : SubOptions)
    (s : Subscription)
    (h : (initializePushNotifications env url opts).1 = .resolved s) :
    ∃ r : Registration, (registerServiceWorker env url).1 = .resolved r ∧
      (initializePushNotifications env url opts).2 =
        [HostCall.register url, HostCall.requestPermission,
          HostCall.subscribe r opts] := by
  rcases hreg : registerServiceWorker env url with ⟨o1, t1⟩
  rcases o1 with r | e | _
  · rcases hperm : requestPermission env with ⟨o2, t2⟩
    rcases o2 with p | e | _
    · rcases hsub : subscribeToPush env (some r) opts with ⟨o3, t3⟩
      have hinit : initializePushNotifications env url opts =
          (o3, t1 ++ t2 ++ t3) := by
        simp [initializePushNotifications, hreg, hperm, hsub]
      rw [hinit] at h
      simp at h
      subst h
      have e1 := register_resolved env url r (by rw [hreg])
      rw [hreg] at e1
      simp at e1
      have e2 := (permission_resolved env p (by rw [hperm])).2.2
      rw [hperm] at e2
      simp at e2
      have e3 := subscribe_resolved env r opts s (by rw [hsub])
      rw [hsub] at e3
      simp at e3
      refine ⟨r, rfl, ?_⟩
      rw [hinit]
      simp [e1, e2.2, e3]
    · simp [initializePushNotifications, hreg, hperm] at h
    · simp [initializePushNotifications, hreg, hperm] at h
  · simp [initializePushNotifications, hreg] at h
  · simp [initializePushNotifications, hreg] at h

/-- C2 witness: the literal spec scenario 5, all three host capabilities
succeeding, called once each in registration, permission, subscribe
order with the registration from step 1. -/
theorem C2_init_ordering_witness :
    (initializePushNotifications envOk "/sw.js" optsA).2 =
      [HostCall.register "/sw.js", HostCall.requestPermission,
        HostCall.subscribe regA optsA] := by
  obtain ⟨r, hr, ht⟩ := C2_init_ordering envOk "/sw.js" optsA subA (by decide)
  have hr2 : (Outcome.resolved regA : Outcome Registration) = .resolved r := by
    rw [← hr]
    decide
  injection hr2 with hr3
  subst hr3
  exact ht

/-- C6 counterexample: the code does not wrap host errors. With the host
register capability rejecting the opaque value hostErr 7 and the host
subscribe capability rejecting hostErr 9, each operation rejects with the
bare host error itself, which differs from the spec-modelled wrapped
forms registrationFailed and subscriptionFailed. -/
theorem C6_wrapping_counterexample :
    (registerServiceWorker envHostFail "/sw.js").1 = .rejected (.hostErr 7) ∧
    (registerServiceWorker envHostFail "/sw.js").1 ≠
      .rejected (.registrationFailed (.hostErr 7)) ∧
    (subscribeToPush envHostFail (some regA) optsA).1 = .rejected (.hostErr 9) ∧
    (subscribeToPush envHostFail (some regA) optsA).1 ≠
      .rejected (.subscriptionFailed (.hostErr 9)) :=
  ⟨by decide, by decide, by decide, by decide⟩

/-- C6 amended: when the host register or subscribe capability rejects,
the operation rejects with exactly the underlying host error, unchanged
and unwrapped; the rejection reason is the cause itself. -/
theorem C6_error_passthrough (env : Env) (url : String) (r : Registration)
    (opts : SubOptions) (e : JsError)
    (hnav : env.hasNavigator = true) (hsw : env.hasServiceWorker = true) :
    (env.registerOutcome url = .rejected e →
      registerServiceWorker env url = (.rejected e, [HostCall.register url])) ∧
    (r.pushManager = true → env.hasNotification = true →
      env.permission = "granted" → env.subscribeOutcome r opts = .rejected e →
      subscribeToPush env (some r) opts =
        (.rejected e, [HostCall.subscribe r opts])) := by
  constructor
  · intro h
    simp [registerServiceWorker, registerServiceWorkerExec, runPromise, hnav, hsw, h]
  · intro hp hn hg h
    simp [subscribeToPush, subscribeToPushExec, runPromise, hp, hn, hg, h]

/-- C6 amended witness: concrete opaque host failures pass through. -/
theorem C6_error_passthrough_witness :
    registerServiceWorker envHostFail "/sw.js" =
      (.rejected (.hostErr 7), [HostCall.register "/sw.js"]) ∧
    subscribeToPush envHostFail (some regA) optsA =
      (.rejected (.hostErr 9), [HostCall.subscribe regA optsA]) :=
  ⟨(C6_error_passthrough envHostFail "/sw.js" regA optsA (.hostErr 7) rfl rfl).1 rfl,
   (C6_error_passthrough envHostFail "/sw.js" regA optsA (.hostErr 9) rfl rfl).2
     rfl rfl rfl rfl⟩

/-- C8: the claim fails on the code. In requestPermission the then
callback on the host permission promise has no catch companion, so when
that promise rejects, neither resolve nor reject of the outer promise is
ever called: the returned promise stays pending forever and the host
failure is swallowed instead of surfacing as a rejection. Evaluated at
the concrete failing environment envPermReject, whose host permission
capability rejects with hostErr 3. -/
theorem C8_host_rejection_swallowed :
    (requestPermission envPermReject).1 = Outcome.pending ∧
    (requestPermission envPermReject).1 ≠ Outcome.rejected (.hostErr 3) :=
  ⟨by decide, by decide⟩

/-- C9: every public operation returns a promise and never throws
synchronously. Each precondition check runs inside a promise executor,
and by the semantics of the promise constructor a value thrown there
(reading pushManager of a null registration, reading window or navigator
when the global is absent) becomes a rejection of the returned promise;
initializePushNotifications only composes the other three operations, so
it rejects rather than throws as well. -/
theorem C9_no_sync_throw :
    (∀ env e, (requestPermissionExec env).1 = .threw e →
      (requestPermission env).1 = .rejected e) ∧
    (∀ env url e, (registerServiceWorkerExec env url).1 = .threw e →
      (registerServiceWorker env url).1 = .rejected e) ∧
    (∀ env reg opts e, (subscribeToPushExec env reg opts).1 = .threw e →
      (subscribeToPush env reg opts).1 = .rejected e) ∧
    (∀ env opts, (subscribeToPush env none opts).1 =
      .rejected (.native "TypeError: Cannot read properties of null (reading pushManager)")) ∧
    (∀ env, env.hasWindow = false → (requestPermission env).1 =
      .rejected (.native "ReferenceError: window is not defined")) ∧
    (∀ env url opts, env.hasNavigator = false →
      (initializePushNotifications env url opts).1 =
        .rejected (.native "ReferenceError: navigator is not defined")) := by
  refine ⟨?_, ?_, ?_, ?_, ?_, ?_⟩
  · intro env e h
    rcases hx : requestPermissionExec env with ⟨o, t⟩
    rw [hx] at h
    simp at h
    subst h
    simp [requestPermission, runPromise, hx]
  · intro env url e h
    rcases hx : registerServiceWorkerExec env url with ⟨o, t⟩
    rw [hx] at h
    simp at h
    subst h
    simp [registerServiceWorker, runPromise, hx]
  · intro env reg opts e h
    rcases hx : subscribeToPushExec env reg opts with ⟨o, t⟩
    rw [hx] at h
    simp at h
    subst h
    simp [subscribeToPush, runPromise, hx]
  · intro env opts
    simp [subscribeToPush, subscribeToPushExec, runPromise]
  · intro env h
    simp [requestPermission, requestPermissionExec, runPromise, h]
  · intro env url opts h
    simp [initializePushNotifications, registerServiceWorker,
      registerServiceWorkerExec, runPromise, h]

/-- C9 witness: requestPermission with no window global rejects rather
than throws, and subscribeToPush on a null registration rejects rather
than throws. -/
theorem C9_no_sync_throw_witness :
    (requestPermission envNoWin).1 =
      .rejected (.native "ReferenceError: window is not defined") ∧
    (subscribeToPush envOk none optsA).1 =
      .rejected (.native "TypeError: Cannot read properties of null (reading pushManager)") :=
  ⟨C9_no_sync_throw.2.2.2.2.1 envNoWin rfl,
   C9_no_sync_throw.2.2.2.1 envOk optsA⟩

/-- C10: the permission failure of subscribeToPush carries the message
with the word is, the denial failure of requestPermission carries the
message without it, and the two message strings differ, so the two
failure kinds are distinguishable by message. -/
theorem C10_distinct_permission_messages (env : Env) (r : Registration)
    (opts : SubOptions) (p : String)
    (hp : r.pushManager = true) (hn : env.hasNotification = true)
    (hg : env.permission ≠ "granted")
    (hw : env.hasWindow = true) (hq : p ≠ "granted")
    (hr : env.requestPermissionOutcome = .resolved p) :
    (subscribeToPush env (some r) opts).1 =
      .rejected (.error "Notification permission is not granted.") ∧
    (requestPermission env).1 =
      .rejected (.error "Notification permission not granted.") ∧
    JsError.error "Notification permission is not granted." ≠
      JsError.error "Notification permission not granted." := by
  refine ⟨?_, ?_, by decide⟩
  · simp [subscribeToPush, subscribeToPushExec, runPromise, hp, hn, hg]
  · simp [requestPermission, requestPermissionExec, runPromise, hw, hn, hr, hq]

/-- C10 witness: the denying environment exhibits both messages. -/
theorem C10_distinct_permission_messages_witness :
    (subscribeToPush envDenied (some regA) optsA).1 =
      .rejected (.error "Notification permission is not granted.") ∧
    (requestPermission envDenied).1 =
      .rejected (.error "Notification permission not granted.") ∧
    JsError.error "Notification permission is not granted." ≠
      JsError.error "Notification permission not granted." :=
  C10_distinct_permission_messages envDenied regA optsA "denied" rfl rfl
    (by decide) rfl (by decide) rfl

end Pushmatic
